import Mathlib

/-!
Verification of the octo-job-board job-synchronisation service.

The repository ships three source artefacts:
* the unit-test file of `src/domain/services/job-service.js` (the differ,
  the fetch-and-cache routine, the read-through cache and the orchestrator);
* `compile` — the HTML mail-template builder;
* `src/client/src/services/authentication.js` — the client token handling.

The job-service implementation itself is not among the sources (only its
tests are), so the differ and the orchestrator are modelled from the spec,
as marked on each definition.  `compile` and `authenticate` are embedded
directly from their source files.
-/

namespace JobBoard

/-- An activity record: identity-bearing `id` plus a display `title`. -/
structure Activity where
  id : Nat
  title : String
deriving DecidableEq

/-- A project record: identity-bearing `id` plus a display `name`. -/
structure Project where
  id : Nat
  name : String
deriving DecidableEq

/-- A Job pairs a project and an activity (data model of the spec; the test
file builds jobs as records holding a `project` and an `activity`, each with
an `id`). -/
structure Job where
  project : Project
  activity : Activity
deriving DecidableEq

/-- The change report produced by the differ.  `addedJobs`/`removedJobs` are
`Option`s because the JS object omits those keys entirely in the degenerate
branches. -/
structure ChangeReport where
  isInit : Bool
  hasChanges : Bool
  addedJobs : Option (List Job) := none
  removedJobs : Option (List Job) := none
deriving DecidableEq

/-- The activity identifiers of a job list, in list order. -/
def activityIds (jobs : List Job) : List Nat :=
  jobs.map fun j => j.activity.id

/-- Modelled from the spec: `_compareFetchedAndCachedJobs` of
`src/domain/services/job-service.js` is absent from the sources (only its
unit tests are present).  Decision policy §4.2: absent `oldJobs` first
(bootstrap), then absent `freshJobs`, else the two set differences keyed on
the activity identifier. -/
def _compareFetchedAndCachedJobs (freshJobs oldJobs : Option (List Job)) :
    ChangeReport :=
  match oldJobs with
  | none => { isInit := true, hasChanges := false }
  | some old =>
    match freshJobs with
    | none => { isInit := false, hasChanges := false }
    | some fresh =>
      let oldIds := old.map fun j => j.activity.id
      let freshIds := fresh.map fun j => j.activity.id
      let addedJobs := fresh.filter fun j => !(oldIds.contains j.activity.id)
      let removedJobs := old.filter fun j => !(freshIds.contains j.activity.id)
      { isInit := false
        hasChanges := !addedJobs.isEmpty || !removedJobs.isEmpty
        addedJobs := some addedJobs
        removedJobs := some removedJobs }

/-- Transport/authorization error from a collaborator. -/
abbrev Err := String

/-- An access credential for the remote source. -/
abbrev Token := String

/-- A raw project record as returned by the remote source. -/
abbrev ProjectRaw := String

/-- A raw activity record as returned by the remote source. -/
abbrev ActivityRaw := String

/-- The single fixed cache key used throughout: the literal `get_jobs` of
the test file. -/
def CACHE_KEY : String := "get_jobs"

/-- The key-value cache store: `get(key) -> value | null`. -/
abbrev Cache := String → Option (List Job)

/-- Writing `value` under `key` in the cache store. -/
def cacheWrite (c : Cache) (key : String) (value : List Job) : Cache :=
  fun k => if k = key then some value else c k

/-- Observable side effects of one service call, recorded in call order. -/
inductive Effect where
  | cacheGet
  | getAccessToken
  | fetchProjects
  | fetchActivities
  | serializeJobs
  | cacheSet (key : String) (value : List Job)
  | notify
deriving DecidableEq

/-- The external collaborators (remote source and serializer), injected as
capabilities; each remote call may fail with a transport error. -/
structure Env where
  getAccessToken : Except Err Token
  fetchProjectsToBeStaffed : Token → Except Err (List ProjectRaw)
  fetchActivitiesToBeStaffed : Token → List ProjectRaw → Except Err (List ActivityRaw)
  serialize : List ProjectRaw → List ActivityRaw → List Job

/-- Modelled from the spec: `_fetchAndCacheJobs` of
`src/domain/services/job-service.js` is absent from the sources (only its
unit tests are present).  §4.1: acquire the credential, fetch projects, fetch
activities scoped to those projects, serialize, write the cache under the
fixed key, return the jobs; any failure aborts and propagates with no cache
write. -/
def _fetchAndCacheJobs (env : Env) (cache : Cache) :
    Except Err (List Job) × Cache × List Effect :=
  match env.getAccessToken with
  | .error e => (.error e, cache, [.getAccessToken])
  | .ok token =>
    match env.fetchProjectsToBeStaffed token with
    | .error e => (.error e, cache, [.getAccessToken, .fetchProjects])
    | .ok projects =>
      match env.fetchActivitiesToBeStaffed token projects with
      | .error e => (.error e, cache, [.getAccessToken, .fetchProjects, .fetchActivities])
      | .ok activities =>
        let jobs := env.serialize projects activities
        (.ok jobs, cacheWrite cache CACHE_KEY jobs,
          [.getAccessToken, .fetchProjects, .fetchActivities, .serializeJobs,
           .cacheSet CACHE_KEY jobs])

/-- Modelled from the spec: `getJobs` of
`src/domain/services/job-service.js` is absent from the sources (only its
unit tests are present).  §4.4: read the cache under the fixed key; if
present and non-null return it directly, else run a full fetch-and-cache
cycle. -/
def getJobs (env : Env) (cache : Cache) :
    Except Err (List Job) × Cache × List Effect :=
  match cache CACHE_KEY with
  | some jobs => (.ok jobs, cache, [.cacheGet])
  | none =>
    let result := _fetchAndCacheJobs env cache
    (result.1, result.2.1, .cacheGet :: result.2.2)

/-- Modelled from the spec: `synchronizeJobs` of
`src/domain/services/job-service.js` is absent from the sources (only its
unit tests are present).  §4.3: read the pre-fetch cached list, run
fetch-and-cache unconditionally, diff the fresh list against the pre-fetch
cached list, notify subscribers only when the report has changes, return the
report. -/
def synchronizeJobs (env : Env) (subscribers : List String) (cache : Cache) :
    Except Err ChangeReport × Cache × List Effect :=
  let oldJobs := cache CACHE_KEY
  match _fetchAndCacheJobs env cache with
  | (.error e, c, t) => (.error e, c, .cacheGet :: t)
  | (.ok freshJobs, c, t) =>
    let report := _compareFetchedAndCachedJobs (some freshJobs) oldJobs
    if report.hasChanges && !subscribers.isEmpty then
      (.ok report, c, (.cacheGet :: t) ++ [.notify])
    else
      (.ok report, c, .cacheGet :: t)

/-- A sample job used in concrete witnesses. -/
def jobW : Job :=
  { project := { id := 10, name := "ProjA" }, activity := { id := 1, title := "ActA" } }

/-- The same activity as `jobW` attached to a different project. -/
def jobW2 : Job :=
  { project := { id := 20, name := "ProjB" }, activity := { id := 1, title := "ActA" } }

/-- Sample access token handed out by the remote source in witnesses. -/
def tokenW : Token := "octopod-access-token"

/-- Sample transport error in witnesses. -/
def errBoom : Err := "boom"

/-- Sample verification error in witnesses. -/
def errBadToken : Err := "bad token"

/-- Sample Google id token in witnesses. -/
def gidW : String := "gid"

/-- Sample access token returned by the verification API in witnesses. -/
def tok123 : String := "tok123"

/-- A sample environment whose remote calls all succeed. -/
def envOk : Env :=
  { getAccessToken := .ok tokenW
    fetchProjectsToBeStaffed := fun _ => .ok ["project_1"]
    fetchActivitiesToBeStaffed := fun _ _ => .ok ["activity_1"]
    serialize := fun _ _ => [jobW] }

/-- A sample environment whose projects fetch fails with `errBoom`. -/
def envFail : Env :=
  { getAccessToken := .ok tokenW
    fetchProjectsToBeStaffed := fun _ => .error errBoom
    fetchActivitiesToBeStaffed := fun _ _ => .ok []
    serialize := fun _ _ => [] }

/-- The empty cache. -/
def cacheEmpty : Cache := fun _ => none

/-- A cache holding `[jobW]` under every key, in particular the fixed one. -/
def cacheWithJobs : Cache := fun _ => some [jobW]

/-- lodash `isEmpty` restricted to the optional job lists the mail template
receives: `undefined` and `[]` are empty, a non-empty array is not. -/
def isEmpty : Option (List Job) → Bool
  | none => true
  | some l => l.isEmpty

/-- One `<li>` line of the notification: activity title and project name. -/
def jobItem (job : Job) : String :=
  "<li><bold>" ++ job.activity.title ++ "</bold> pour le projet " ++
    job.project.name ++ "</li>"

/-- The `forEach` loop appending one `<li>` per job. -/
def jobItems (jobs : List Job) : String :=
  jobs.foldl (fun acc job => acc ++ jobItem job) ""

/-- The mail-template builder `compile` of the jobs template source file:
the two fixed greeting paragraphs, then an added-jobs section when
`addedJobs` is non-empty, then a removed-jobs section when `removedJobs` is
non-empty. -/
def compile (model : ChangeReport) : String :=
  let addedJobs := model.addedJobs
  let removedJobs := model.removedJobs
  let template := "<p>Bonjour,</p>"
  let template := template ++
    "<p>Il y a du nouveau du côté du <a href=\"https://jobs.octo.com\">Jobboard</a>.</p>"
  let template := if !(isEmpty addedJobs) then
      template ++ "<p>" ++ toString (addedJobs.getD []).length ++
        " nouvelle(s) mission(s) à staffer :" ++ "<ul>" ++
        jobItems (addedJobs.getD []) ++ "</ul>" ++ "</p>"
    else template
  let template := if !(isEmpty removedJobs) then
      template ++ "<p>" ++ toString (removedJobs.getD []).length ++
        " mission(s) retirée(s) :" ++ "<ul>" ++
        jobItems (removedJobs.getD []) ++ "</ul>" ++ "</p>"
    else template
  template

/-- The two fixed greeting paragraphs opening every notification body. -/
def greeting : String :=
  "<p>Bonjour,</p>" ++
    "<p>Il y a du nouveau du côté du <a href=\"https://jobs.octo.com\">Jobboard</a>.</p>"

/-- The added-jobs section: the count of added jobs, then one line per job
with its activity title and project name. -/
def addedSection (jobs : List Job) : String :=
  "<p>" ++ toString jobs.length ++ " nouvelle(s) mission(s) à staffer :" ++
    "<ul>" ++ jobItems jobs ++ "</ul>" ++ "</p>"

/-- The removed-jobs section: the count of removed jobs, then one line per
job with its activity title and project name. -/
def removedSection (jobs : List Job) : String :=
  "<p>" ++ toString jobs.length ++ " mission(s) retirée(s) :" ++
    "<ul>" ++ jobItems jobs ++ "</ul>" ++ "</p>"

/-- The browser localStorage key for the access token: the literal
`access_token` of the source file. -/
def LOCALSTORAGE_KEY : String := "access_token"

/-- The browser localStorage, a string key-value store. -/
abbrev LocalStorage := String → Option String

/-- `_saveAccessTokenIntoLocalStorage` of
`src/client/src/services/authentication.js`: store the token under the
fixed key when a DOM is available, else do nothing. -/
def _saveAccessTokenIntoLocalStorage (canUseDOM : Bool) (accessToken : String)
    (storage : LocalStorage) : LocalStorage :=
  if canUseDOM then
    fun k => if k = LOCALSTORAGE_KEY then some accessToken else storage k
  else storage

/-- `_removeAccessTokenFromLocalStorage` of
`src/client/src/services/authentication.js`: drop the fixed key when a DOM
is available, else do nothing. -/
def _removeAccessTokenFromLocalStorage (canUseDOM : Bool)
    (storage : LocalStorage) : LocalStorage :=
  if canUseDOM then
    fun k => if k = LOCALSTORAGE_KEY then none else storage k
  else storage

/-- The response of the `verifyIdTokenAndGetAccessToken` API call. -/
structure AuthResponse where
  access_token : String

/-- `authenticate` of `src/client/src/services/authentication.js`: verify
the Google id token; on success save the returned access token into
localStorage and resolve with no value, on failure remove any stored access
token and reject with the original error. -/
def authenticate (canUseDOM : Bool)
    (verifyIdTokenAndGetAccessToken : String → Except Err AuthResponse)
    (googleIdToken : String) (storage : LocalStorage) :
    Except Err Unit × LocalStorage :=
  match verifyIdTokenAndGetAccessToken googleIdToken with
  | .ok response =>
    (.ok (), _saveAccessTokenIntoLocalStorage canUseDOM response.access_token storage)
  | .error err =>
    (.error err, _removeAccessTokenFromLocalStorage canUseDOM storage)

/-- A verification API call that succeeds with access token `tok123`. -/
def verifyOk : String → Except Err AuthResponse :=
  fun _ => .ok { access_token := tok123 }

/-- A verification API call that fails with `errBadToken`. -/
def verifyFail : String → Except Err AuthResponse :=
  fun _ => .error errBadToken

/-- An empty localStorage. -/
def storageEmpty : LocalStorage := fun _ => none

end JobBoard

namespace JobBoard

/-- Bridge between the boolean membership test of the code and the
set-membership phrasing of the spec. -/
lemma not_contains_eq_decide_not_mem (l : List Nat) (x : Nat) :
    (!(l.contains x)) = decide (x ∉ l) := by
  simp [List.elem_iff, decide_not]

/-- Bridge between the `isEmpty` disjunction of the code and the
non-emptiness disjunction of the spec. -/
lemma not_isEmpty_or_eq_decide (a r : List Job) :
    (!a.isEmpty || !r.isEmpty) = decide (a ≠ [] ∨ r ≠ []) := by
  cases a <;> cases r <;> simp

/-- Mapping a projection over a filter whose predicate factors through that
projection equals filtering the mapped list. -/
lemma map_filter_factor (f : Job → Nat) (p : Nat → Bool) (l : List Job) :
    (l.filter fun j => p (f j)).map f = (l.map f).filter p := by
  induction l with
  | nil => rfl
  | cons a t ih =>
    by_cases h : p (f a) = true
    · simp [List.filter_cons, h, ih]
    · simp [List.filter_cons, h, ih]

/-- C1: on two present lists the report has `isInit` false, `addedJobs` is
exactly the subsequence of `freshJobs` whose activity ids do not occur among
the activity ids of `oldJobs` (in `freshJobs` order), `removedJobs` the symmetric
subsequence of `oldJobs`, and `hasChanges` holds iff one of the two is
non-empty. -/
theorem compare_diff_spec (fresh old : List Job) :
    ∃ added removed,
      _compareFetchedAndCachedJobs (some fresh) (some old) =
        { isInit := false
          hasChanges := decide (added ≠ [] ∨ removed ≠ [])
          addedJobs := some added
          removedJobs := some removed } ∧
      added = fresh.filter (fun j => decide (j.activity.id ∉ activityIds old)) ∧
      removed = old.filter (fun j => decide (j.activity.id ∉ activityIds fresh)) ∧
      added.Sublist fresh ∧ removed.Sublist old := by
  have hpa : (fun j : Job => !((old.map fun k => k.activity.id).contains j.activity.id))
      = fun j : Job => decide (j.activity.id ∉ activityIds old) := by
    funext j
    rw [activityIds, not_contains_eq_decide_not_mem]
  have hpr : (fun j : Job => !((fresh.map fun k => k.activity.id).contains j.activity.id))
      = fun j : Job => decide (j.activity.id ∉ activityIds fresh) := by
    funext j
    rw [activityIds, not_contains_eq_decide_not_mem]
  refine ⟨fresh.filter (fun j => decide (j.activity.id ∉ activityIds old)),
          old.filter (fun j => decide (j.activity.id ∉ activityIds fresh)),
          ?_, rfl, rfl, List.filter_sublist _, List.filter_sublist _⟩
  show ChangeReport.mk false _ _ _ = _
  rw [hpa, hpr, not_isEmpty_or_eq_decide]

/-- C4: membership in `addedJobs`/`removedJobs` depends only on the activity
identifiers: a job whose activity id occurs in both lists lands in neither
sequence, and two runs whose inputs agree pointwise on activity ids classify
the same positions (the id sequences of the added and removed jobs
coincide). -/
theorem compare_project_blind (f₁ o₁ f₂ o₂ : List Job) (j : Job)
    (hf : activityIds f₁ = activityIds f₂) (ho : activityIds o₁ = activityIds o₂) :
    (j.activity.id ∈ activityIds f₁ → j.activity.id ∈ activityIds o₁ →
      j ∉ ((_compareFetchedAndCachedJobs (some f₁) (some o₁)).addedJobs.getD []) ∧
      j ∉ ((_compareFetchedAndCachedJobs (some f₁) (some o₁)).removedJobs.getD [])) ∧
    activityIds ((_compareFetchedAndCachedJobs (some f₁) (some o₁)).addedJobs.getD []) =
      activityIds ((_compareFetchedAndCachedJobs (some f₂) (some o₂)).addedJobs.getD []) ∧
    activityIds ((_compareFetchedAndCachedJobs (some f₁) (some o₁)).removedJobs.getD []) =
      activityIds ((_compareFetchedAndCachedJobs (some f₂) (some o₂)).removedJobs.getD []) := by
  simp only [_compareFetchedAndCachedJobs, Option.getD_some]
  refine ⟨fun hjf hjo => ⟨?_, ?_⟩, ?_, ?_⟩
  · intro hmem
    have := (List.mem_filter.mp hmem).2
    simp only [Bool.not_eq_true', ← Bool.not_eq_true] at this
    exact this (List.elem_iff.mpr (by simpa [activityIds] using hjo))
  · intro hmem
    have := (List.mem_filter.mp hmem).2
    simp only [Bool.not_eq_true', ← Bool.not_eq_true] at this
    exact this (List.elem_iff.mpr (by simpa [activityIds] using hjf))
  · rw [activityIds, activityIds,
      map_filter_factor (fun j => j.activity.id) (fun i => !((o₁.map fun k => k.activity.id).contains i)) f₁,
      map_filter_factor (fun j => j.activity.id) (fun i => !((o₂.map fun k => k.activity.id).contains i)) f₂]
    have hf' : f₁.map (fun j => j.activity.id) = f₂.map fun j => j.activity.id := hf
    have ho' : o₁.map (fun j => j.activity.id) = o₂.map fun j => j.activity.id := ho
    rw [hf', ho']
  · rw [activityIds, activityIds,
      map_filter_factor (fun j => j.activity.id) (fun i => !((f₁.map fun k => k.activity.id).contains i)) o₁,
      map_filter_factor (fun j => j.activity.id) (fun i => !((f₂.map fun k => k.activity.id).contains i)) o₂]
    have hf' : f₁.map (fun j => j.activity.id) = f₂.map fun j => j.activity.id := hf
    have ho' : o₁.map (fun j => j.activity.id) = o₂.map fun j => j.activity.id := ho
    rw [hf', ho']

/-- C2: comparing against an absent cached list is the bootstrap case. -/
theorem compare_oldJobs_absent (X : Option (List Job)) :
    _compareFetchedAndCachedJobs X none =
      { isInit := true, hasChanges := false,
        addedJobs := none, removedJobs := none } := rfl

/-- C3: an absent fresh list (with a present old list) yields the degenerate
no-changes report with no diff fields; and this branch is reached only after
the absent-oldJobs check, which wins when both are absent. -/
theorem compare_freshJobs_absent (Y : List Job) :
    _compareFetchedAndCachedJobs none (some Y) =
      { isInit := false, hasChanges := false,
        addedJobs := none, removedJobs := none } ∧
    _compareFetchedAndCachedJobs none none =
      { isInit := true, hasChanges := false,
        addedJobs := none, removedJobs := none } :=
  ⟨rfl, rfl⟩

/-- C6: the added jobs of `compare(A, B)` and the removed jobs of
`compare(B, A)` are the same jobs (here even as equal lists, hence equal as
sets). -/
theorem compare_added_removed_swap (A B : List Job) :
    ∃ added removed,
      (_compareFetchedAndCachedJobs (some A) (some B)).addedJobs = some added ∧
      (_compareFetchedAndCachedJobs (some B) (some A)).removedJobs = some removed ∧
      added = removed ∧ (∀ j : Job, j ∈ added ↔ j ∈ removed) :=
  ⟨_, _, rfl, rfl, rfl, fun _ => Iff.rfl⟩

/-- C5: with an empty cache, `synchronizeJobs` (when every remote call
succeeds) returns the bootstrap report — `isInit` true, the diff fields
absent — writes the freshly fetched list under the fixed key, and never
notifies subscribers. -/
theorem synchronize_bootstrap (env : Env) (subs : List String) (cache : Cache)
    (hc : cache CACHE_KEY = none)
    (token : Token) (projects : List ProjectRaw) (activities : List ActivityRaw)
    (h1 : env.getAccessToken = .ok token)
    (h2 : env.fetchProjectsToBeStaffed token = .ok projects)
    (h3 : env.fetchActivitiesToBeStaffed token projects = .ok activities) :
    ∃ c t,
      synchronizeJobs env subs cache =
        (.ok { isInit := true, hasChanges := false,
               addedJobs := none, removedJobs := none }, c, t) ∧
      c CACHE_KEY = some (env.serialize projects activities) ∧
      Effect.notify ∉ t := by
  refine ⟨cacheWrite cache CACHE_KEY (env.serialize projects activities),
          [.cacheGet, .getAccessToken, .fetchProjects, .fetchActivities, .serializeJobs,
           .cacheSet CACHE_KEY (env.serialize projects activities)], ?_, ?_, ?_⟩
  · simp [synchronizeJobs, _fetchAndCacheJobs, h1, h2, h3, hc,
      _compareFetchedAndCachedJobs]
  · simp [cacheWrite]
  · simp

/-- C5 witness: the bootstrap synchronisation at a concrete all-succeeding
environment and empty cache. -/
theorem synchronize_bootstrap_witness :
    ∃ c t,
      synchronizeJobs envOk [] cacheEmpty =
        (.ok { isInit := true, hasChanges := false,
               addedJobs := none, removedJobs := none }, c, t) ∧
      c CACHE_KEY = some (envOk.serialize ["project_1"] ["activity_1"]) ∧
      Effect.notify ∉ t :=
  synchronize_bootstrap envOk [] cacheEmpty rfl tokenW
    ["project_1"] ["activity_1"] rfl rfl rfl

/-- C7: when the cache holds a non-null list under the fixed key, `getJobs`
returns it verbatim, leaves the cache unchanged, and its trace holds no
remote call, no serialization and no cache write. -/
theorem getJobs_cached (env : Env) (cache : Cache) (jobs : List Job)
    (h : cache CACHE_KEY = some jobs) :
    ∃ t, getJobs env cache = (.ok jobs, cache, t) ∧
      Effect.getAccessToken ∉ t ∧ Effect.fetchProjects ∉ t ∧
      Effect.fetchActivities ∉ t ∧ Effect.serializeJobs ∉ t ∧
      (∀ key value, Effect.cacheSet key value ∉ t) := by
  refine ⟨[.cacheGet], ?_, by simp, by simp, by simp, by simp, fun key value => by simp⟩
  simp [getJobs, h]

/-- C7 witness: the read-through cache path at a concrete cache holding one
job. -/
theorem getJobs_cached_witness :
    ∃ t, getJobs envOk cacheWithJobs = (.ok [jobW], cacheWithJobs, t) ∧
      Effect.getAccessToken ∉ t ∧ Effect.fetchProjects ∉ t ∧
      Effect.fetchActivities ∉ t ∧ Effect.serializeJobs ∉ t ∧
      (∀ key value, Effect.cacheSet key value ∉ t) :=
  getJobs_cached envOk cacheWithJobs [jobW] rfl

/-- C8: a failure of the credential acquisition, the projects fetch or the
activities fetch propagates unchanged and leaves the cache untouched with no
cache write in the trace; on full success the single cache write is the last
step, after both fetches and the serialization. -/
theorem fetchAndCache_failure_atomic (env : Env) (cache : Cache) (e : Err) :
    (env.getAccessToken = .error e →
      ∃ t, _fetchAndCacheJobs env cache = (.error e, cache, t) ∧
        ∀ key value, Effect.cacheSet key value ∉ t) ∧
    (∀ token, env.getAccessToken = .ok token →
      env.fetchProjectsToBeStaffed token = .error e →
      ∃ t, _fetchAndCacheJobs env cache = (.error e, cache, t) ∧
        ∀ key value, Effect.cacheSet key value ∉ t) ∧
    (∀ token projects, env.getAccessToken = .ok token →
      env.fetchProjectsToBeStaffed token = .ok projects →
      env.fetchActivitiesToBeStaffed token projects = .error e →
      ∃ t, _fetchAndCacheJobs env cache = (.error e, cache, t) ∧
        ∀ key value, Effect.cacheSet key value ∉ t) ∧
    (∀ token projects activities, env.getAccessToken = .ok token →
      env.fetchProjectsToBeStaffed token = .ok projects →
      env.fetchActivitiesToBeStaffed token projects = .ok activities →
      _fetchAndCacheJobs env cache =
        (.ok (env.serialize projects activities),
         cacheWrite cache CACHE_KEY (env.serialize projects activities),
         [.getAccessToken, .fetchProjects, .fetchActivities, .serializeJobs,
          .cacheSet CACHE_KEY (env.serialize projects activities)])) := by
  refine ⟨fun h1 => ⟨[.getAccessToken], ?_, fun key value => by simp⟩,
          fun token h1 h2 => ⟨[.getAccessToken, .fetchProjects], ?_,
            fun key value => by simp⟩,
          fun token projects h1 h2 h3 =>
            ⟨[.getAccessToken, .fetchProjects, .fetchActivities], ?_,
             fun key value => by simp⟩,
          fun token projects activities h1 h2 h3 => ?_⟩
  · simp [_fetchAndCacheJobs, h1]
  · simp [_fetchAndCacheJobs, h1, h2]
  · simp [_fetchAndCacheJobs, h1, h2, h3]
  · simp [_fetchAndCacheJobs, h1, h2, h3]

/-- C8 witness: a concrete failing projects fetch propagates `errBoom` and
performs no cache write. -/
theorem fetchAndCache_failure_atomic_witness :
    ∃ t, _fetchAndCacheJobs envFail cacheEmpty = (.error errBoom, cacheEmpty, t) ∧
      ∀ key value, Effect.cacheSet key value ∉ t :=
  (fetchAndCache_failure_atomic envFail cacheEmpty errBoom).2.1
    tokenW rfl rfl

/-- C4 witness: one activity present in both lists under two different
projects is classified in neither sequence. -/
theorem compare_project_blind_witness :
    jobW ∉ ((_compareFetchedAndCachedJobs (some [jobW]) (some [jobW2])).addedJobs.getD []) ∧
    jobW ∉ ((_compareFetchedAndCachedJobs (some [jobW]) (some [jobW2])).removedJobs.getD []) :=
  (compare_project_blind [jobW] [jobW2] [jobW] [jobW2] jobW rfl rfl).1
    (by decide) (by decide)

/-- C9: every compiled notification body is the fixed greeting paragraphs
followed by the added-jobs section exactly when `addedJobs` is non-empty and
the removed-jobs section exactly when `removedJobs` is non-empty; with both
empty or absent the body is exactly the greeting. -/
theorem compile_structure (model : ChangeReport) :
    (∃ rest, compile model = greeting ++ rest) ∧
    compile model =
      greeting ++
        (if isEmpty model.addedJobs then "" else addedSection (model.addedJobs.getD [])) ++
        (if isEmpty model.removedJobs then "" else removedSection (model.removedJobs.getD [])) ∧
    (isEmpty model.addedJobs = true → isEmpty model.removedJobs = true →
      compile model = greeting) := by
  have key : compile model =
      greeting ++
        (if isEmpty model.addedJobs then "" else addedSection (model.addedJobs.getD [])) ++
        (if isEmpty model.removedJobs then "" else removedSection (model.removedJobs.getD [])) := by
    cases ha : isEmpty model.addedJobs <;> cases hr : isEmpty model.removedJobs <;>
      simp only [compile, greeting, addedSection, removedSection, ha, hr,
        Bool.not_true, Bool.not_false, Bool.false_eq_true, if_false, if_true,
        String.append_assoc, String.append_empty]
  refine ⟨⟨(if isEmpty model.addedJobs then "" else addedSection (model.addedJobs.getD [])) ++
      (if isEmpty model.removedJobs then "" else removedSection (model.removedJobs.getD [])), ?_⟩,
    key, fun ha hr => ?_⟩
  · rw [key, String.append_assoc]
  · simp [key, ha, hr]

/-- C9 witness: with both diff fields absent the compiled body is exactly
the greeting. -/
theorem compile_structure_witness :
    compile { isInit := true, hasChanges := false,
              addedJobs := none, removedJobs := none } = greeting :=
  (compile_structure { isInit := true, hasChanges := false,
                       addedJobs := none, removedJobs := none }).2.2 rfl rfl

/-- C10: `authenticate` (with a DOM available) either succeeds, leaving the
access token of the verification API stored under the fixed localStorage key and
resolving with no value, or the verification call fails, in which case the
stored token is removed and the original error is propagated — no stale
token survives a failed authentication. -/
theorem authenticate_token_hygiene
    (verifyIdTokenAndGetAccessToken : String → Except Err AuthResponse)
    (googleIdToken : String) (storage : LocalStorage) :
    (∀ response, verifyIdTokenAndGetAccessToken googleIdToken = .ok response →
      ∃ s, authenticate true verifyIdTokenAndGetAccessToken googleIdToken storage =
            (.ok (), s) ∧
        s LOCALSTORAGE_KEY = some response.access_token) ∧
    (∀ e, verifyIdTokenAndGetAccessToken googleIdToken = .error e →
      ∃ s, authenticate true verifyIdTokenAndGetAccessToken googleIdToken storage =
            (.error e, s) ∧
        s LOCALSTORAGE_KEY = none) := by
  constructor
  · intro response h
    refine ⟨_saveAccessTokenIntoLocalStorage true response.access_token storage, ?_, ?_⟩
    · simp [authenticate, h]
    · simp [_saveAccessTokenIntoLocalStorage]
  · intro e h
    refine ⟨_removeAccessTokenFromLocalStorage true storage, ?_, ?_⟩
    · simp [authenticate, h]
    · simp [_removeAccessTokenFromLocalStorage]

/-- C10 witness: a concrete succeeding and a concrete failing verification
call, the latter leaving no token stored. -/
theorem authenticate_token_hygiene_witness :
    (∃ s, authenticate true verifyOk gidW storageEmpty = (.ok (), s) ∧
      s LOCALSTORAGE_KEY = some tok123) ∧
    (∃ s, authenticate true verifyFail gidW storageEmpty = (.error errBadToken, s) ∧
      s LOCALSTORAGE_KEY = none) :=
  ⟨(authenticate_token_hygiene verifyOk gidW storageEmpty).1
      { access_token := tok123 } rfl,
   (authenticate_token_hygiene verifyFail gidW storageEmpty).2 errBadToken rfl⟩

end JobBoard
